/-
Verification of the ccmem Project Memory Store against its specification.

This file shallowly embeds the two server implementations of the store:
 - the Bun server backed by SQLite (`server-bun.js` together with `schema.sql`),
   modelled in namespace `Bun`, and
 - the Node fallback server backed by a JSON document (`server-node.js`),
   modelled in namespace `Node`.

Modelling conventions:
 - SQLite tables are lists of row structures kept in rowid (insertion) order;
   each table's AUTOINCREMENT counter is an explicit `next...Id : Nat` field.
 - Timestamps (`CURRENT_TIMESTAMP`, `new Date().toISOString()`, `Date.now()`)
   are environment inputs; every operation takes an explicit `now : Nat`.
 - JavaScript argument bags are a structure `Args` whose fields are all
   optional (a missing property is `none`), matching untyped destructuring.
 - JavaScript truthiness defaulting (`x || d`, where `0`, `""`, `undefined`
   and `null` are falsy) is modelled by `orDefaultStr` / `jsNatOrNull` etc.
 - `ORDER BY created_at DESC LIMIT n` is modelled as `(·.reverse.take n)` on
   the filtered table; for stores whose rows were appended with nondecreasing
   timestamps this is exactly a descending createdAt order (ties resolved by
   descending rowid).  `ORDER BY` on text keys is a stable insertion sort.
 - Fallible operations return `Except String (store × responseText)`; a
   thrown JS error / failed SQLite statement is the `.error` case.
-/
import Mathlib

/-- JavaScript `s.substring(0, n)` (by characters). -/
def jsSub (s : String) (n : Nat) : String := ⟨s.data.take n⟩

/-- Character list of a string lowered ASCII-wise, as produced by
JS `toLowerCase` / SQL `LOWER` on ASCII text. -/
def lowerChars (s : String) : List Char := s.data.map Char.toLower

/-- JS `toUpperCase` on ASCII text. -/
def upperStr (s : String) : String := ⟨s.data.map Char.toUpper⟩

/-- JS `x || null` for an optional string argument: `undefined` and the empty
string (both falsy) become SQL `NULL`. -/
def orNull : Option String → Option String
  | none => none
  | some s => if s == "" then none else some s

/-- JS `x || d` for an optional string argument with default `d`. -/
def orDefaultStr : Option String → String → String
  | none, d => d
  | some s, d => if s == "" then d else s

/-- JS `x || d` for an optional numeric argument with default `d`
(`0` is falsy and is replaced by the default). -/
def orDefaultNat : Option Nat → Nat → Nat
  | none, d => d
  | some n, d => if n == 0 then d else n

/-- JS `x || null` for an optional numeric argument: `undefined` and `0`
(both falsy) become `null`. -/
def jsNatOrNull : Option Nat → Option Nat
  | none => none
  | some n => if n == 0 then none else some n

/-- JS string interpolation of a possibly-undefined value:
`` `${x}` `` renders `undefined` as the text "undefined". -/
def showOpt : Option String → String
  | some s => s
  | none => "undefined"

/-- Stable insertion into a list sorted by the boolean comparison `le`. -/
def insertBy (le : α → α → Bool) (x : α) : List α → List α
  | [] => [x]
  | y :: t => if le x y then x :: y :: t else y :: insertBy le x t

/-- Stable insertion sort by the boolean comparison `le`; models SQL
`ORDER BY` on a text / numeric key (stability resolves ties by the
incoming order, matching the modelling convention above). -/
def insSortBy (le : α → α → Bool) : List α → List α
  | [] => []
  | x :: t => insertBy le x (insSortBy le t)

/-- Concatenated map: `catMap f [a, b] = f a ++ f b`. -/
def catMap (f : α → List β) : List α → List β
  | [] => []
  | x :: t => f x ++ catMap f t

/-- Join a list of report lines the way both servers do:
`context.join('\\n')`, i.e. with the literal two-character sequence `\n`. -/
def joinNL (l : List String) : String := String.intercalate "\\n" l

/-- All suffixes of a character list, longest first (the list itself down to
`[]`). -/
def suffixes : List Char → List (List Char)
  | [] => [[]]
  | c :: s => (c :: s) :: suffixes s

/-- One literal-character step of LIKE matching: keep the candidates whose
next character is `c`, consuming it. -/
def stepLit (c : Char) : List (List Char) → List (List Char)
  | [] => []
  | [] :: t => stepLit c t
  | (x :: s) :: t => if c == x then s :: stepLit c t else stepLit c t

/-- LIKE matching engine: scan the pattern left to right, tracking the set
of residual string suffixes that could still complete the match.  `%`
matches any run of characters (every suffix stays possible), `_` consumes
exactly one character, anything else matches itself. -/
def likeGo : List Char → List (List Char) → Bool
  | [], opts => opts.any (·.isEmpty)
  | p :: ps, opts =>
    if p = '%' then likeGo ps (catMap suffixes opts)
    else if p = '_' then likeGo ps (opts.filterMap (·.tail?))
    else likeGo ps (stepLit p opts)

/-- SQL `LIKE` matching over character lists.  The servers compare
`LOWER(column) LIKE '%' || lower(query) || '%'`, so both sides are already
lowercased and the match itself is case-sensitive here. -/
def likeMatch (pat s : List Char) : Bool := likeGo pat [s]

/-- `isLead q s`: `q` is an initial run of `s`. -/
def isLead : List Char → List Char → Bool
  | [], _ => true
  | _ :: _, [] => false
  | p :: ps, c :: s => p == c && isLead ps s

/-- `hasSub q s`: `q` occurs contiguously inside `s`. -/
def hasSub (q : List Char) : List Char → Bool
  | [] => q.isEmpty
  | c :: s => isLead q (c :: s) || hasSub q s

/-- A row of the `settings` table (schema.sql): `UNIQUE(category, key_name)`,
`value NOT NULL`, `description NULL`, timestamp defaults. -/
structure SettingRow where
  id : Nat
  category : String
  key_name : String
  value : String
  description : Option String
  created_at : Nat
  updated_at : Nat
deriving DecidableEq

/-- A row of the `architecture` table (schema.sql).  Note: the schema declares
NO unique constraint on `component`; only the autoincrement primary key. -/
structure ArchRow where
  id : Nat
  component : String
  description : String
  tech_stack : String
  file_paths : Option String
  patterns : Option String
  created_at : Nat
  updated_at : Nat
deriving DecidableEq

/-- A row of the `deployment` table (schema.sql); no unique constraint on
`environment`. -/
structure DeployRow where
  id : Nat
  environment : String
  target_host : Option String
  deployment_steps : String
  test_verification : Option String
  rollback_steps : Option String
  last_deployed_at : Option Nat
  created_at : Nat
  updated_at : Nat
deriving DecidableEq

/-- A row of the `story` table (schema.sql). -/
structure StoryRow where
  id : Nat
  title : String
  description : String
  status : String
  priority : Nat
  files_affected : Option String
  created_at : Nat
  updated_at : Nat
  completed_at : Option Nat
deriving DecidableEq

/-- A row of the `task` table (schema.sql); `story_id` is nullable and not
enforced (the FOREIGN KEY clause is inert because the server never enables
`PRAGMA foreign_keys`). -/
structure TaskRow where
  id : Nat
  story_id : Option Nat
  title : String
  description : String
  status : String
  files_affected : Option String
  implementation_notes : Option String
  created_at : Nat
  updated_at : Nat
  completed_at : Option Nat
deriving DecidableEq

/-- A row of the `defect` table (schema.sql). -/
structure DefectRow where
  id : Nat
  story_id : Option Nat
  task_id : Option Nat
  title : String
  description : String
  severity : String
  status : String
  files_affected : Option String
  fix_description : Option String
  created_at : Nat
  resolved_at : Option Nat
deriving DecidableEq

/-- A row of the `lessons` table (schema.sql). -/
structure LessonRow where
  id : Nat
  title : String
  description : String
  category : String
  impact_level : String
  related_files : Option String
  tags : Option String
  created_at : Nat
deriving DecidableEq

/-- A row of the `knowledge` table (schema.sql). -/
structure KnowledgeRow where
  id : Nat
  title : String
  content : String
  category : String
  tags : Option String
  created_at : Nat
  updated_at : Nat
deriving DecidableEq

/-- The SQLite-backed store: the eight tables in rowid order plus each
table's AUTOINCREMENT counter (the next id to assign; SQLite AUTOINCREMENT
never reuses ids). -/
structure Store where
  settings : List SettingRow
  architecture : List ArchRow
  deployment : List DeployRow
  story : List StoryRow
  task : List TaskRow
  defect : List DefectRow
  lessons : List LessonRow
  knowledge : List KnowledgeRow
  nextSettingsId : Nat
  nextArchId : Nat
  nextDeployId : Nat
  nextStoryId : Nat
  nextTaskId : Nat
  nextDefectId : Nat
  nextLessonsId : Nat
  nextKnowledgeId : Nat
deriving DecidableEq

/-- A freshly created database: empty tables, AUTOINCREMENT counters at 1. -/
def emptyStore : Store :=
  ⟨[], [], [], [], [], [], [], [], 1, 1, 1, 1, 1, 1, 1, 1⟩

/-- The untyped MCP `arguments` bag: every property is optional, matching
JavaScript destructuring of a JSON object.  A property the caller did not
send is `none` (JS `undefined`). -/
structure Args where
  category : Option String := none
  key : Option String := none
  value : Option String := none
  description : Option String := none
  component : Option String := none
  tech_stack : Option String := none
  file_paths : Option String := none
  patterns : Option String := none
  environment : Option String := none
  target_host : Option String := none
  deployment_steps : Option String := none
  test_verification : Option String := none
  rollback_steps : Option String := none
  title : Option String := none
  content : Option String := none
  tags : Option String := none
  related_files : Option String := none
  implementation_notes : Option String := none
  files_affected : Option String := none
  severity : Option String := none
  impact_level : Option String := none
  query : Option String := none
  focus : Option String := none
  priority : Option Nat := none
  story_id : Option Nat := none
  task_id : Option Nat := none
deriving DecidableEq

namespace Bun

/-- Confirmation text of `learnSetting` (both servers use the identical
template). -/
def settingText (c k v : String) : String :=
  "✅ Learned setting: " ++ c ++ "." ++ k ++ " = \"" ++ v ++
  "\"\n\nI\x27ll remember this project configuration for future development assistance."

/-- Store effect of `learnSetting`: `INSERT OR REPLACE INTO settings
(category, key_name, value, description, updated_at) VALUES (?,?,?,?,
CURRENT_TIMESTAMP)`.  The `UNIQUE(category, key_name)` constraint makes
REPLACE delete any row with the same (category, key_name); the insert omits
`id` and `created_at`, so the new row gets a fresh AUTOINCREMENT id and
`created_at = CURRENT_TIMESTAMP`. -/
def applySetting (st : Store) (now : Nat) (c k : String) (v : String)
    (d : Option String) : Store :=
  { st with
    settings :=
      st.settings.filter (fun r => !(r.category == c && r.key_name == k)) ++
      [⟨st.nextSettingsId, c, k, v, orNull d, now, now⟩],
    nextSettingsId := st.nextSettingsId + 1 }

/-- `learnSetting(args)` of the Bun server.  A missing required field is a
NULL bound into a NOT NULL column: the statement throws and nothing is
written. -/
def learnSetting (st : Store) (now : Nat) (a : Args) :
    Except String (Store × String) :=
  match a.category, a.key, a.value with
  | some c, some k, some v =>
    .ok (applySetting st now c k v a.description, settingText c k v)
  | none, _, _ => .error "NOT NULL constraint failed: settings.category"
  | _, none, _ => .error "NOT NULL constraint failed: settings.key_name"
  | _, _, none => .error "NOT NULL constraint failed: settings.value"

/-- Store effect of `learnArchitecture`: `INSERT OR REPLACE INTO
architecture (component, description, tech_stack, file_paths, patterns,
updated_at) VALUES (...)`.  The `architecture` table has no unique
constraint besides the fresh autoincrement primary key, so OR REPLACE can
never fire: every call appends a new row. -/
def applyArchitecture (st : Store) (now : Nat) (c d ts : String)
    (fp pat : Option String) : Store :=
  { st with
    architecture :=
      st.architecture ++ [⟨st.nextArchId, c, d, ts, orNull fp, orNull pat, now, now⟩],
    nextArchId := st.nextArchId + 1 }

/-- Confirmation text of `learnArchitecture`. -/
def archText (c ts : String) : String :=
  "🏗️ Learned architecture: " ++ c ++ "\n\nTech stack: " ++ ts ++
  "\n\nI\x27ll use this knowledge for future architectural decisions and code analysis."

/-- `learnArchitecture(args)` of the Bun server. -/
def learnArchitecture (st : Store) (now : Nat) (a : Args) :
    Except String (Store × String) :=
  match a.component, a.description, a.tech_stack with
  | some c, some d, some ts =>
    .ok (applyArchitecture st now c d ts a.file_paths a.patterns, archText c ts)
  | none, _, _ => .error "NOT NULL constraint failed: architecture.component"
  | _, none, _ => .error "NOT NULL constraint failed: architecture.description"
  | _, _, none => .error "NOT NULL constraint failed: architecture.tech_stack"

/-- Store effect of `learnDeployment`: like `architecture`, the table has no
unique key on `environment`, so `INSERT OR REPLACE` always appends. -/
def applyDeployment (st : Store) (now : Nat) (e ds : String)
    (th tv rb : Option String) : Store :=
  { st with
    deployment :=
      st.deployment ++
      [⟨st.nextDeployId, e, orNull th, ds, orNull tv, orNull rb, none, now, now⟩],
    nextDeployId := st.nextDeployId + 1 }

/-- Confirmation text of `learnDeployment`. -/
def deployText (e : String) : String :=
  "🚀 Learned deployment for " ++ e ++
  "\n\nI\x27ll remember these deployment procedures for future releases."

/-- `learnDeployment(args)` of the Bun server. -/
def learnDeployment (st : Store) (now : Nat) (a : Args) :
    Except String (Store × String) :=
  match a.environment, a.deployment_steps with
  | some e, some ds =>
    .ok (applyDeployment st now e ds a.target_host a.test_verification a.rollback_steps,
         deployText e)
  | none, _ => .error "NOT NULL constraint failed: deployment.environment"
  | _, none => .error "NOT NULL constraint failed: deployment.deployment_steps"

/-- Store effect of `createStory`: plain `INSERT INTO story (title,
description, priority, files_affected)`; `status` takes the SQL default
'active', `priority` the JS default `priority || 3`. -/
def applyStory (st : Store) (now : Nat) (t d : String) (p : Option Nat)
    (fa : Option String) : Store :=
  { st with
    story :=
      st.story ++
      [⟨st.nextStoryId, t, d, "active", orDefaultNat p 3, orNull fa, now, now, none⟩],
    nextStoryId := st.nextStoryId + 1 }

/-- Confirmation text of `createStory`. -/
def storyText (i : Nat) (t : String) : String :=
  "📖 Created story #" ++ toString i ++ ": " ++ t ++
  "\n\nThis replaces traditional GitHub PRs with intelligent project memory."

/-- `createStory(args)` of the Bun server. -/
def createStory (st : Store) (now : Nat) (a : Args) :
    Except String (Store × String) :=
  match a.title, a.description with
  | some t, some d =>
    .ok (applyStory st now t d a.priority a.files_affected, storyText st.nextStoryId t)
  | none, _ => .error "NOT NULL constraint failed: story.title"
  | _, none => .error "NOT NULL constraint failed: story.description"

/-- Store effect of `createTask`: `INSERT INTO task (story_id, title,
description, files_affected, implementation_notes)` with `story_id || null`
(JS falsiness maps 0 to NULL); `status` takes the SQL default 'todo'.  The
FOREIGN KEY on `story_id` is not enforced (no `PRAGMA foreign_keys`). -/
def applyTask (st : Store) (now : Nat) (sid : Option Nat) (t d : String)
    (fa impl : Option String) : Store :=
  { st with
    task :=
      st.task ++
      [⟨st.nextTaskId, jsNatOrNull sid, t, d, "todo", orNull fa, orNull impl, now, now, none⟩],
    nextTaskId := st.nextTaskId + 1 }

/-- Confirmation text of `createTask`: the trailing line is the JS ternary
`story_id ? 'Linked to story #...' : 'Standalone task'` on the raw
(falsy-checked) argument. -/
def taskText (i : Nat) (t : String) (sid : Option Nat) : String :=
  "✅ Created task #" ++ toString i ++ ": " ++ t ++ "\n\n" ++
  (match sid with
   | some n => if n == 0 then "Standalone task" else "Linked to story #" ++ toString n
   | none => "Standalone task")

/-- `createTask(args)` of the Bun server. -/
def createTask (st : Store) (now : Nat) (a : Args) :
    Except String (Store × String) :=
  match a.title, a.description with
  | some t, some d =>
    .ok (applyTask st now a.story_id t d a.files_affected a.implementation_notes,
         taskText st.nextTaskId t a.story_id)
  | none, _ => .error "NOT NULL constraint failed: task.title"
  | _, none => .error "NOT NULL constraint failed: task.description"

/-- Store effect of `logDefect`; `severity || 'medium'`, `status` default
'open', weak references through `x || null`. -/
def applyDefect (st : Store) (now : Nat) (t d : String) (sev : Option String)
    (fa : Option String) (sid tid : Option Nat) : Store :=
  { st with
    defect :=
      st.defect ++
      [⟨st.nextDefectId, jsNatOrNull sid, jsNatOrNull tid, t, d,
        orDefaultStr sev "medium", "open", orNull fa, none, now, none⟩],
    nextDefectId := st.nextDefectId + 1 }

/-- Confirmation text of `logDefect`. -/
def defectText (i : Nat) (t : String) (sev : Option String) : String :=
  "🐛 Logged defect #" ++ toString i ++ ": " ++ t ++ "\n\nSeverity: " ++
  orDefaultStr sev "medium"

/-- `logDefect(args)` of the Bun server. -/
def logDefect (st : Store) (now : Nat) (a : Args) :
    Except String (Store × String) :=
  match a.title, a.description with
  | some t, some d =>
    .ok (applyDefect st now t d a.severity a.files_affected a.story_id a.task_id,
         defectText st.nextDefectId t a.severity)
  | none, _ => .error "NOT NULL constraint failed: defect.title"
  | _, none => .error "NOT NULL constraint failed: defect.description"

/-- Store effect of `recordLesson`; `impact_level || 'medium'`. -/
def applyLesson (st : Store) (now : Nat) (t d cat : String)
    (imp rf tg : Option String) : Store :=
  { st with
    lessons :=
      st.lessons ++
      [⟨st.nextLessonsId, t, d, cat, orDefaultStr imp "medium", orNull rf, orNull tg, now⟩],
    nextLessonsId := st.nextLessonsId + 1 }

/-- Confirmation text of `recordLesson`. -/
def lessonText (t cat : String) (imp : Option String) : String :=
  "🧠 Recorded lesson: " ++ t ++ "\n\nCategory: " ++ cat ++ "\nImpact: " ++
  orDefaultStr imp "medium" ++
  "\n\nThis wisdom will guide future development decisions."

/-- `recordLesson(args)` of the Bun server. -/
def recordLesson (st : Store) (now : Nat) (a : Args) :
    Except String (Store × String) :=
  match a.title, a.description, a.category with
  | some t, some d, some c =>
    .ok (applyLesson st now t d c a.impact_level a.related_files a.tags,
         lessonText t c a.impact_level)
  | none, _, _ => .error "NOT NULL constraint failed: lessons.title"
  | _, none, _ => .error "NOT NULL constraint failed: lessons.description"
  | _, _, none => .error "NOT NULL constraint failed: lessons.category"

/-- Store effect of `addKnowledge`; `category || 'general'`. -/
def applyKnowledge (st : Store) (now : Nat) (t c : String)
    (cat tg : Option String) : Store :=
  { st with
    knowledge :=
      st.knowledge ++
      [⟨st.nextKnowledgeId, t, c, orDefaultStr cat "general", orNull tg, now, now⟩],
    nextKnowledgeId := st.nextKnowledgeId + 1 }

/-- Confirmation text of `addKnowledge`. -/
def knowledgeText (t : String) : String :=
  "📚 Added knowledge: " ++ t ++
  "\n\nThis information is now part of my project memory."

/-- `addKnowledge(args)` of the Bun server. -/
def addKnowledge (st : Store) (now : Nat) (a : Args) :
    Except String (Store × String) :=
  match a.title, a.content with
  | some t, some c =>
    .ok (applyKnowledge st now t c a.category a.tags, knowledgeText t)
  | none, _ => .error "NOT NULL constraint failed: knowledge.title"
  | _, none => .error "NOT NULL constraint failed: knowledge.content"

end Bun

namespace Bun

/-- First `settings.value` for (category='start', key_name='command'), as the
`project_status` view computes it (`LIMIT 1` in rowid order). -/
def startCmd (st : Store) : Option String :=
  (st.settings.find? (fun r => r.category == "start" && r.key_name == "command")).map
    (·.value)

/-- First `settings.value` for (category='test', key_name='command'). -/
def testCmd (st : Store) : Option String :=
  (st.settings.find? (fun r => r.category == "test" && r.key_name == "command")).map
    (·.value)

/-- A command line of the status block: pushed only when the view's value is
JS-truthy (`if (status?.start_command)`), so a NULL or empty value is
omitted. -/
def cmdLine (label : String) : Option String → List String
  | none => []
  | some v => if v == "" then [] else ["- " ++ label ++ ": `" ++ v ++ "`"]

/-- The always-present status block of `getContext`, from the
`project_status` view: active stories, pending tasks, open defects, lesson
count, then the start/test commands when truthy. -/
def statusLines (st : Store) : List String :=
  ["## 🎯 Project Status",
   "- Active Stories: " ++
     toString (st.story.filter (fun r => r.status == "active")).length,
   "- Pending Tasks: " ++
     toString (st.task.filter
       (fun r => r.status == "todo" || r.status == "in_progress")).length,
   "- Open Defects: " ++
     toString (st.defect.filter (fun r => r.status == "open")).length,
   "- Lessons Learned: " ++ toString st.lessons.length] ++
  cmdLine "Start Command" (startCmd st) ++
  cmdLine "Test Command" (testCmd st)

/-- Comparison of `ORDER BY category, key_name`. -/
def settingsLe (a b : SettingRow) : Bool :=
  decide (a.category < b.category) ||
  (a.category == b.category && decide (a.key_name ≤ b.key_name))

/-- One line of the settings block. -/
def settingLine (r : SettingRow) : String :=
  "- " ++ r.category ++ "." ++ r.key_name ++ ": `" ++ r.value ++ "`"

/-- Settings block (`focus` all/settings): every setting ordered by
(category, key_name); omitted entirely when there are no settings. -/
def settingsSection (st : Store) : List String :=
  if insSortBy settingsLe st.settings = [] then []
  else "\\n## ⚙️ Key Settings" :: (insSortBy settingsLe st.settings).map settingLine

/-- Architecture block (`focus` all/architecture): every note ordered by
component, two lines each; omitted when empty. -/
def archSection (st : Store) : List String :=
  if insSortBy (fun a b => decide (a.component ≤ b.component)) st.architecture = []
  then []
  else
    "\\n## 🏗️ Architecture" ::
    catMap (fun a => ["- **" ++ a.component ++ "**: " ++ a.description,
                      "  - Tech: " ++ a.tech_stack])
      (insSortBy (fun a b => decide (a.component ≤ b.component)) st.architecture)

/-- The up-to-3 active stories of the current-work block: `WHERE status =
'active' ORDER BY priority, created_at DESC LIMIT 3` (stable sort by
priority over the reversed, i.e. createdAt-descending, filtered table). -/
def activeStories (st : Store) : List StoryRow :=
  (insSortBy (fun a b => decide (a.priority ≤ b.priority))
    ((st.story.filter (fun r => r.status == "active")).reverse)).take 3

/-- The up-to-5 pending tasks of the current-work block: `WHERE status IN
('todo','in_progress') ORDER BY created_at DESC LIMIT 5`. -/
def pendingTasks (st : Store) : List TaskRow :=
  ((st.task.filter
    (fun r => r.status == "todo" || r.status == "in_progress")).reverse).take 5

/-- Current-work block (`focus` all/current): active stories then pending
tasks, each sub-block omitted when empty. -/
def currentSection (st : Store) : List String :=
  (if activeStories st = [] then []
   else "\\n## 📖 Active Stories" ::
        (activeStories st).map
          (fun s => "- **Story #" ++ toString s.id ++ "**: " ++ s.title)) ++
  (if pendingTasks st = [] then []
   else "\\n## ✅ Pending Tasks" ::
        (pendingTasks st).map
          (fun t => "- **Task #" ++ toString t.id ++ "**: " ++ t.title ++
                    " (" ++ t.status ++ ")"))

/-- One line of the recent-lessons block: the description preview is
`l.description.substring(0, 100)` with "..." appended unconditionally. -/
def lessonLine (l : LessonRow) : String :=
  "- **" ++ l.title ++ "** (" ++ l.category ++ "): " ++
  jsSub l.description 100 ++ "..."

/-- Recent-lessons block (`focus` all/recent): up to 3 lessons, createdAt
descending; omitted when empty. -/
def recentSection (st : Store) : List String :=
  if (st.lessons.reverse).take 3 = [] then []
  else "\\n## 🧠 Recent Lessons" :: ((st.lessons.reverse).take 3).map lessonLine

/-- The lines `getContext(focus)` accumulates in `context`. -/
def getContextLines (st : Store) (focus : String) : List String :=
  statusLines st ++
  (if focus = "all" ∨ focus = "settings" then settingsSection st else []) ++
  (if focus = "all" ∨ focus = "architecture" then archSection st else []) ++
  (if focus = "all" ∨ focus = "current" then currentSection st else []) ++
  (if focus = "all" ∨ focus = "recent" then recentSection st else [])

/-- The text `getContext` returns: the accumulated lines joined with the
literal two-character sequence `\n` (the source joins with `'\\n'`). -/
def getContextText (st : Store) (focus : String) : String :=
  joinNL (getContextLines st focus)

/-- A row of the aggregated search result set: the four SELECTs alias the
matched body column (description resp. content) to `description`. -/
structure SearchHit where
  type : String
  id : Nat
  title : String
  body : String
  created_at : Nat
deriving DecidableEq

/-- The LIKE pattern built from the query:
`` const searchTerm = `%${query.toLowerCase()}%` ``. -/
def searchPat (q : String) : List Char := '%' :: (lowerChars q ++ ['%'])

/-- The WHERE clause of each search SELECT:
`LOWER(title) LIKE ?1 OR LOWER(body) LIKE ?1`. -/
def rowMatch (q : String) (title body : String) : Bool :=
  likeMatch (searchPat q) (lowerChars title) ||
  likeMatch (searchPat q) (lowerChars body)

/-- `ORDER BY created_at DESC LIMIT 5` over a filtered table (see the
modelling conventions at the top of the file). -/
def topMatches (p : α → Bool) (l : List α) : List α :=
  ((l.filter p).reverse).take 5

/-- The concatenated result rows of `search`, with one generic match
predicate on (title, body): stories, then tasks, then lessons, then
knowledge, each independently filtered, ordered and capped at 5. -/
def searchHitsWith (m : String → String → Bool) (st : Store) : List SearchHit :=
  (topMatches (fun r => m r.title r.description) st.story).map
    (fun r => ⟨"story", r.id, r.title, r.description, r.created_at⟩) ++
  (topMatches (fun r => m r.title r.description) st.task).map
    (fun r => ⟨"task", r.id, r.title, r.description, r.created_at⟩) ++
  (topMatches (fun r => m r.title r.description) st.lessons).map
    (fun r => ⟨"lesson", r.id, r.title, r.description, r.created_at⟩) ++
  (topMatches (fun r => m r.title r.content) st.knowledge).map
    (fun r => ⟨"knowledge", r.id, r.title, r.content, r.created_at⟩)

/-- The result rows `search(query)` collects in `results`.  The `category`
argument is accepted but never used by the source. -/
def searchHits (st : Store) (q : String) : List SearchHit :=
  searchHitsWith (rowMatch q) st

/-- The two lines `search` pushes per result: the header line, then the body
preview `description.substring(0, 150)` with "..." and a literal `\n`
appended unconditionally. -/
def renderHit (h : SearchHit) : List String :=
  ["**" ++ upperStr h.type ++ " #" ++ toString h.id ++ "**: " ++ h.title,
   jsSub h.body 150 ++ "...\\n"]

/-- The report lines of a non-empty search: header then two lines per hit. -/
def searchLines (st : Store) (q : String) : List String :=
  ("## 🔍 Search Results for \"" ++ q ++ "\"\\n") ::
  catMap renderHit (searchHits st q)

/-- The text `search(query)` returns: an explicit no-results message when
nothing matched, otherwise the joined report. -/
def searchText (st : Store) (q : String) : String :=
  if searchHits st q = [] then "No results found for \"" ++ q ++ "\""
  else joinNL (searchLines st q)

/-- `handleCallTool` of the Bun server: dispatch on the tool name.  For
`ccmem_get_context` the focus defaults to 'all' when absent; for
`ccmem_search` a missing query makes `query.toLowerCase()` throw. -/
def callTool (st : Store) (now : Nat) (name : String) (a : Args) :
    Except String (Store × String) :=
  if name = "ccmem_learn_setting" then learnSetting st now a
  else if name = "ccmem_learn_architecture" then learnArchitecture st now a
  else if name = "ccmem_learn_deployment" then learnDeployment st now a
  else if name = "ccmem_create_story" then createStory st now a
  else if name = "ccmem_create_task" then createTask st now a
  else if name = "ccmem_log_defect" then logDefect st now a
  else if name = "ccmem_record_lesson" then recordLesson st now a
  else if name = "ccmem_add_knowledge" then addKnowledge st now a
  else if name = "ccmem_get_context" then
    .ok (st, getContextText st (match a.focus with | some f => f | none => "all"))
  else if name = "ccmem_search" then
    match a.query with
    | some q => .ok (st, searchText st q)
    | none => .error "TypeError: undefined is not an object"
  else .error ("Unknown tool: " ++ name)

/-- The store after one dispatched call: a failed call leaves the store
unchanged (the statement threw before any visible write). -/
def step (st : Store) (now : Nat) (name : String) (a : Args) : Store :=
  match callTool st now name a with
  | .ok (st', _) => st'
  | .error _ => st

end Bun

/-- A row of the `settings` array of the Node server's JSON document.  The
fields come straight from the untyped argument bag, so the key fields may be
absent (`undefined`); `id` is `Date.now()`. -/
structure NodeSettingRow where
  id : Nat
  category : Option String
  key_name : Option String
  value : Option String
  description : Option String
  created_at : Nat
  updated_at : Nat
deriving DecidableEq

/-- A row of the `story` array of the Node JSON document.  No operation of
the Node server ever writes stories; `getContext` only counts the ones with
status 'active'. -/
structure NodeStoryRow where
  status : Option String
deriving DecidableEq

/-- The Node server's JSON document (`.claude/db/ccmem.json`).  Only the
arrays the Node code ever reads or writes are modelled: `settings` (written
by `learnSetting`), and `architecture` / `story` (only counted by
`getContext`). The remaining five arrays are initialized empty and never
touched. -/
structure NodeStore where
  settings : List NodeSettingRow
  architecture : List Unit
  story : List NodeStoryRow
deriving DecidableEq

/-- A fresh Node JSON document. -/
def emptyNodeStore : NodeStore := ⟨[], [], []⟩

namespace Node

/-- Store effect of the Node `learnSetting`: filter out any row with the
same (category, key_name) — compared with `===`, so two `undefined`s are
equal — then push a new row with `id = Date.now()` and ISO timestamps. -/
def applySetting (nst : NodeStore) (now : Nat) (c k v d : Option String) :
    NodeStore :=
  { nst with
    settings :=
      nst.settings.filter (fun r => !(r.category == c && r.key_name == k)) ++
      [⟨now, c, k, v, orNull d, now, now⟩] }

/-- `learnSetting(args)` of the Node server: no validation at all — missing
required fields are stored as `undefined` and interpolated as "undefined"
into the success message. -/
def learnSetting (nst : NodeStore) (now : Nat) (a : Args) : NodeStore × String :=
  (applySetting nst now a.category a.key a.value a.description,
   Bun.settingText (showOpt a.category) (showOpt a.key) (showOpt a.value))

/-- One line of the Node settings block (insertion order, no sort). -/
def settingLine (r : NodeSettingRow) : String :=
  "- " ++ showOpt r.category ++ "." ++ showOpt r.key_name ++ ": `" ++
  showOpt r.value ++ "`"

/-- The status block of the Node `getContext`: different counters than the
Bun server (settings learned, architecture components, active stories). -/
def statusLines (nst : NodeStore) : List String :=
  ["## 🎯 Project Status",
   "- Settings Learned: " ++ toString nst.settings.length,
   "- Architecture Components: " ++ toString nst.architecture.length,
   "- Active Stories: " ++
     toString (nst.story.filter (fun r => r.status == some "active")).length]

/-- The lines of the Node `getContext`: status, then (focus all/settings)
the settings in insertion order when nonempty. -/
def getContextLines (nst : NodeStore) (focus : String) : List String :=
  statusLines nst ++
  (if focus = "all" ∨ focus = "settings" then
    if nst.settings = [] then []
    else "\\n## ⚙️ Key Settings" :: nst.settings.map settingLine
   else [])

/-- The text the Node `getContext` returns. -/
def getContextText (nst : NodeStore) (focus : String) : String :=
  joinNL (getContextLines nst focus)

/-- `handleCallTool` of the Node server: only two tools are wired up; every
other name throws `Unknown tool`. -/
def callTool (nst : NodeStore) (now : Nat) (name : String) (a : Args) :
    Except String (NodeStore × String) :=
  if name = "ccmem_learn_setting" then .ok (learnSetting nst now a)
  else if name = "ccmem_get_context" then
    .ok (nst, getContextText nst (match a.focus with | some f => f | none => "all"))
  else .error ("Unknown tool: " ++ name)

/-- Required-parameter lists the Node server itself advertises in
`handleListTools` (`inputSchema.required`). -/
def requiredFields (name : String) : List String :=
  if name = "ccmem_learn_setting" then ["category", "key", "value"]
  else []

end Node

/-- Boolean success test for a dispatched call. -/
def okB : Except String α → Bool
  | .ok _ => true
  | .error _ => false

/-- The claim's matching predicate, written from the specification's words:
`query` occurs in `s` up to ASCII case. -/
def specContains (q s : String) : Bool :=
  hasSub (lowerChars q) (lowerChars s)

/-- The claim's per-row search predicate: the query occurs case-insensitively
in the title or in the body. -/
def specRowMatch (q : String) (title body : String) : Bool :=
  specContains q title || specContains q body

/-- Result rows of the search as the (amended) specification describes them:
same shape as `Bun.searchHits` but filtering by case-insensitive
containment. -/
def specSearchHits (st : Store) (q : String) : List Bun.SearchHit :=
  Bun.searchHitsWith (specRowMatch q) st

/-- The search report as the (amended) specification describes it. -/
def specSearchText (st : Store) (q : String) : String :=
  if specSearchHits st q = [] then "No results found for \"" ++ q ++ "\""
  else joinNL (("## 🔍 Search Results for \"" ++ q ++ "\"\\n") ::
               catMap Bun.renderHit (specSearchHits st q))

/-- The query avoids the two LIKE metacharacters (checked on its lowered
characters, which is what reaches the LIKE pattern). -/
def noMetaLow (q : String) : Prop :=
  ∀ c ∈ lowerChars q, c ≠ '%' ∧ c ≠ '_'

/-- Well-formedness of one table's id column: ids strictly increase in rowid
order and stay below the AUTOINCREMENT counter. -/
def tableWF (ids : List Nat) (next : Nat) : Prop :=
  ids.Pairwise (· < ·) ∧ ∀ i ∈ ids, i < next

/-- Well-formedness of all eight id columns of the SQLite store. -/
def storeWF (st : Store) : Prop :=
  tableWF (st.settings.map (·.id)) st.nextSettingsId ∧
  tableWF (st.architecture.map (·.id)) st.nextArchId ∧
  tableWF (st.deployment.map (·.id)) st.nextDeployId ∧
  tableWF (st.story.map (·.id)) st.nextStoryId ∧
  tableWF (st.task.map (·.id)) st.nextTaskId ∧
  tableWF (st.defect.map (·.id)) st.nextDefectId ∧
  tableWF (st.lessons.map (·.id)) st.nextLessonsId ∧
  tableWF (st.knowledge.map (·.id)) st.nextKnowledgeId

/-- Ids are pairwise distinct in every table. -/
def distinctIds (st : Store) : Prop :=
  (st.settings.map (·.id)).Pairwise (· ≠ ·) ∧
  (st.architecture.map (·.id)).Pairwise (· ≠ ·) ∧
  (st.deployment.map (·.id)).Pairwise (· ≠ ·) ∧
  (st.story.map (·.id)).Pairwise (· ≠ ·) ∧
  (st.task.map (·.id)).Pairwise (· ≠ ·) ∧
  (st.defect.map (·.id)).Pairwise (· ≠ ·) ∧
  (st.lessons.map (·.id)).Pairwise (· ≠ ·) ∧
  (st.knowledge.map (·.id)).Pairwise (· ≠ ·)

/-- Rows of the four searched tables carry nondecreasing `created_at` in
rowid order (they were appended as time advanced). -/
def timesSorted (st : Store) : Prop :=
  (st.story.map (·.created_at)).Pairwise (· ≤ ·) ∧
  (st.task.map (·.created_at)).Pairwise (· ≤ ·) ∧
  (st.lessons.map (·.created_at)).Pairwise (· ≤ ·) ∧
  (st.knowledge.map (·.created_at)).Pairwise (· ≤ ·)

instance : DecidablePred noMetaLow := fun q =>
  List.decidableBAll _ (lowerChars q)

instance (ids : List Nat) (next : Nat) : Decidable (tableWF ids next) :=
  instDecidableAnd

instance (st : Store) : Decidable (storeWF st) := instDecidableAnd

instance (st : Store) : Decidable (timesSorted st) := instDecidableAnd

/-- Arguments of the first architecture write of the C2 scenario. -/
def arch1Args : Args :=
  { component := some "API", description := some "REST layer",
    tech_stack := some "Node" }

/-- Arguments of the second architecture write of the C2 scenario: the same
component re-recorded with new content. -/
def arch2Args : Args :=
  { component := some "API", description := some "REST layer v2",
    tech_stack := some "Bun" }

/-- Store after recording the component "API" twice on the Bun server. -/
def archTwiceStore : Store :=
  Bun.step (Bun.step emptyStore 1 "ccmem_learn_architecture" arch1Args)
    2 "ccmem_learn_architecture" arch2Args

/-- Arguments of the two setting writes of the C4 scenario. -/
def set1Args : Args :=
  { category := some "test", key := some "command", value := some "npm run test" }

/-- Second write to the same (category, key) with a different value. -/
def set2Args : Args :=
  { category := some "test", key := some "command",
    value := some "npm run test:ci" }

/-- Store after the first setting write. -/
def setOnceStore : Store := Bun.step emptyStore 1 "ccmem_learn_setting" set1Args

/-- Store after rewriting the same (category, key). -/
def setTwiceStore : Store := Bun.step setOnceStore 2 "ccmem_learn_setting" set2Args

/-- Arguments of the C3 counterexample: a story creation, which only the Bun
server accepts. -/
def storyArgs : Args :=
  { title := some "Add login", description := some "Implement OAuth login flow" }

/-- Arguments of the C5 failing input: `value` (declared required by the
server's own inputSchema) is missing. -/
def noValueArgs : Args := { category := some "test", key := some "command" }

/-- Store with one story, used by the C6 counterexample. -/
def helloStore : Store :=
  Bun.step emptyStore 1 "ccmem_create_story"
    { title := some "hello", description := some "world" }

/-- Store with one short-bodied story, used by the C7 counterexample. -/
def shortStore : Store :=
  Bun.step emptyStore 1 "ccmem_create_story"
    { title := some "t", description := some "abc" }

/-- Store with one short lesson, used by the C7 counterexample. -/
def shortLessonStore : Store :=
  Bun.step emptyStore 1 "ccmem_record_lesson"
    { title := some "ti", description := some "xy", category := some "proc" }

/-- Arguments of the C9 counterexample: a task pointing at story id 0, an id
no story ever has — but also a falsy JS number. -/
def task0Args : Args :=
  { title := some "t", description := some "d", story_id := some (0 : Nat) }

/-- Store after creating the task with storyId 0. -/
def task0Store : Store := Bun.step emptyStore 7 "ccmem_create_task" task0Args

/-- Filtering by `p` after keeping only the rows failing `p` yields nothing:
the REPLACE step of an upsert removes every key-conflicting row. -/
theorem filter_after_filterNot (p : α → Bool) (l : List α) :
    (l.filter (fun a => !(p a))).filter p = [] := by
  rw [List.filter_filter]
  have h : ∀ a ∈ l, (p a && !p a) = (fun _ => false) a := by
    intro a _; exact Bool.and_not_self ..
  rw [List.filter_congr h, List.filter_false]

/-- C10: the learn-setting operation leaves every other entity collection
unchanged, and leaves unchanged (content and order) every Setting row whose
(category, key) differs from the one being written. -/
theorem learnSetting_frame (st : Store) (now : Nat) (c k v : String)
    (d : Option String) :
    Bun.callTool st now "ccmem_learn_setting"
      { category := some c, key := some k, value := some v, description := d } =
      .ok (Bun.applySetting st now c k v d, Bun.settingText c k v) ∧
    (Bun.applySetting st now c k v d).architecture = st.architecture ∧
    (Bun.applySetting st now c k v d).deployment = st.deployment ∧
    (Bun.applySetting st now c k v d).story = st.story ∧
    (Bun.applySetting st now c k v d).task = st.task ∧
    (Bun.applySetting st now c k v d).defect = st.defect ∧
    (Bun.applySetting st now c k v d).lessons = st.lessons ∧
    (Bun.applySetting st now c k v d).knowledge = st.knowledge ∧
    (Bun.applySetting st now c k v d).settings.filter
        (fun r => !(r.category == c && r.key_name == k)) =
      st.settings.filter (fun r => !(r.category == c && r.key_name == k)) := by
  refine ⟨rfl, rfl, rfl, rfl, rfl, rfl, rfl, rfl, ?_⟩
  show ((st.settings.filter _ ++ [_]).filter _) = _
  rw [List.filter_append, List.filter_filter]
  have h : ∀ r ∈ st.settings,
      (!(r.category == c && r.key_name == k) && !(r.category == c && r.key_name == k)) =
      (!(r.category == c && r.key_name == k)) := by
    intro r _; exact Bool.and_self ..
  rw [List.filter_congr h]
  simp

/-- C1: two sequential Setting writes to the same (category, key) with the
clock strictly advancing leave exactly one row for that key, holding the
second value, with `updated_at` strictly greater than the `updated_at` the
first write produced. -/
theorem setting_upsert_latest (st : Store) (c k v1 v2 : String)
    (d1 d2 : Option String) (t1 t2 : Nat) (_hv : v1 ≠ v2) (ht : t1 < t2) :
    ((Bun.applySetting (Bun.applySetting st t1 c k v1 d1) t2 c k v2 d2).settings.filter
        (fun r => r.category == c && r.key_name == k)).map
      (fun r => (r.value, r.updated_at)) = [(v2, t2)] ∧
    ((Bun.applySetting st t1 c k v1 d1).settings.filter
        (fun r => r.category == c && r.key_name == k)).map
      (fun r => r.updated_at) = [t1] ∧
    t1 < t2 := by
  refine ⟨?_, ?_, ht⟩ <;>
    simp [Bun.applySetting, List.filter_append, filter_after_filterNot]

/-- Witness for `setting_upsert_latest` at a concrete input. -/
theorem setting_upsert_latest_witness :
    ((Bun.applySetting (Bun.applySetting emptyStore 1 "test" "command" "npm run test" none)
        2 "test" "command" "npm run test:ci" none).settings.filter
      (fun r => r.category == "test" && r.key_name == "command")).map
      (fun r => (r.value, r.updated_at)) = [("npm run test:ci", 2)] :=
  (setting_upsert_latest emptyStore "test" "command" "npm run test" "npm run test:ci"
    none none 1 2 (by decide) (by decide)).1

/-- C2 (code bug): re-recording the component "API" leaves TWO live
architecture rows for that component — `INSERT OR REPLACE` never replaces
because the `architecture` table has no unique key on `component`. -/
theorem architecture_duplicates :
    (archTwiceStore.architecture.filter (fun r => r.component == "API")).length = 2 ∧
    (archTwiceStore.architecture.map (·.component)) = ["API", "API"] := by
  constructor <;> rfl

/-- C5 (code bug): calling the Node server's learn-setting without the
required `value` succeeds, inserts a row whose value is `undefined`, and
echoes `test.command = "undefined"` — although the server's own
`inputSchema` declares `value` required.  Nothing fails and the partial row
is visible. -/
theorem node_partial_row :
    Node.callTool emptyNodeStore 5 "ccmem_learn_setting" noValueArgs =
      .ok (⟨[⟨5, some "test", some "command", none, none, 5, 5⟩], [], []⟩,
           Bun.settingText "test" "command" "undefined") ∧
    "value" ∈ Node.requiredFields "ccmem_learn_setting" := by
  constructor
  · rfl
  · decide

/-- C3 counterexample: the Bun backend accepts `ccmem_create_story` while
the Node fallback rejects the very same call with `Unknown tool` — the two
backends are distinguishable by callers. -/
theorem backend_mismatch :
    okB (Bun.callTool emptyStore 1 "ccmem_create_story" storyArgs) = true ∧
    Node.callTool emptyNodeStore 1 "ccmem_create_story" storyArgs =
      .error "Unknown tool: ccmem_create_story" := by
  constructor <;> rfl

/-- C6 counterexample: searching for the query "%" returns the lone story
even though neither its title "hello" nor its description "world" contains
the query string — `%` acts as a LIKE wildcard, not as a literal. -/
theorem search_wildcard_leak :
    (Bun.searchHits helloStore "%").length = 1 ∧
    specContains "%" "hello" = false ∧
    specContains "%" "world" = false := by
  refine ⟨rfl, rfl, rfl⟩

/-- C7 counterexample: a 3-character body is rendered as "abc..." — the
ellipsis marker is appended even though nothing was truncated (and likewise
for a 2-character lesson description in the recent-lessons block). -/
theorem preview_always_ellipsis :
    Bun.searchLines shortStore "abc" =
      ["## 🔍 Search Results for \"abc\"\\n", "**STORY #1**: t", "abc...\\n"] ∧
    "abc".data.length ≤ 150 ∧
    Bun.recentSection shortLessonStore =
      ["\\n## 🧠 Recent Lessons", "- **ti** (proc): xy..."] ∧
    "xy".data.length ≤ 100 := by
  refine ⟨rfl, by decide, rfl, by decide⟩

/-- C9 counterexample: creating a task with `storyId = 0` — an id no story
ever has, 1 being the first AUTOINCREMENT value — succeeds but stores
`story_id = NULL` instead of 0 and reports "Standalone task": the falsy id
is not stored as given. -/
theorem task_story_id_zero_dropped :
    (0 : Nat) ∉ emptyStore.story.map (·.id) ∧
    Bun.callTool emptyStore 7 "ccmem_create_task" task0Args =
      .ok (task0Store, "✅ Created task #1: t\n\nStandalone task") ∧
    task0Store.task.map (·.story_id) = [none] := by
  refine ⟨by decide, rfl, rfl⟩

/-- The first character of an append is the first character of its left
part, when the left part is nonempty. -/
theorem strHead_append (a b : String) (c : Char) (h : a.data.head? = some c) :
    (a ++ b).data.head? = some c := by
  rw [String.data_append]
  cases a with
  | mk l =>
    cases l with
    | nil => simp at h
    | cons x t => simpa using h

/-- Every line the command part of the status block pushes starts with '-'. -/
theorem cmdLine_shape (lbl : String) (o : Option String) :
    ∀ y ∈ Bun.cmdLine lbl o, y.data.head? = some '-' := by
  intro y hy
  cases o with
  | none => simp [Bun.cmdLine] at hy
  | some v =>
    by_cases hv : (v == "") = true
    · simp [Bun.cmdLine, hv] at hy
    · simp [Bun.cmdLine, hv] at hy
      subst hy
      apply strHead_append
      apply strHead_append
      apply strHead_append
      apply strHead_append
      decide

/-- Every line the status block pushes starts with '#' or '-'. -/
theorem statusLines_shape (st : Store) :
    ∀ x ∈ Bun.statusLines st,
      x.data.head? = some '#' ∨ x.data.head? = some '-' := by
  intro x hx
  rw [Bun.statusLines] at hx
  rcases List.mem_append.mp hx with h12 | h2
  · rcases List.mem_append.mp h12 with h1 | hc1
    · simp only [List.mem_cons, List.not_mem_nil, or_false] at h1
      rcases h1 with h | h | h | h | h
      · subst h; left; decide
      · subst h; right; apply strHead_append; decide
      · subst h; right; apply strHead_append; decide
      · subst h; right; apply strHead_append; decide
      · subst h; right; apply strHead_append; decide
    · exact Or.inr (cmdLine_shape _ _ _ hc1)
  · exact Or.inr (cmdLine_shape _ _ _ h2)

/-- Every line the settings block pushes is either its header or starts
with '-'. -/
theorem settingsSection_shape (st : Store) :
    ∀ x ∈ Bun.settingsSection st,
      x = "\\n## ⚙️ Key Settings" ∨ x.data.head? = some '-' := by
  intro x hx
  rw [Bun.settingsSection] at hx
  split at hx
  · simp at hx
  · rcases List.mem_cons.mp hx with h | h
    · exact Or.inl h
    · right
      obtain ⟨r, _, h⟩ := List.mem_map.mp h
      subst h
      rw [Bun.settingLine]
      apply strHead_append
      apply strHead_append
      apply strHead_append
      apply strHead_append
      apply strHead_append
      apply strHead_append
      decide

/-- C8: with focus "settings" the report is exactly the status summary
followed by the settings block — in particular the current-work and
recent-lessons headers never appear; for every focus the status summary is
a leading segment; and an unrecognized focus yields the status summary
alone. -/
theorem getContext_focus (st : Store) (f : String) :
    Bun.getContextLines st "settings" = Bun.statusLines st ++ Bun.settingsSection st ∧
    "\\n## 📖 Active Stories" ∉ Bun.getContextLines st "settings" ∧
    "\\n## ✅ Pending Tasks" ∉ Bun.getContextLines st "settings" ∧
    "\\n## 🧠 Recent Lessons" ∉ Bun.getContextLines st "settings" ∧
    (∃ rest, Bun.getContextLines st f = Bun.statusLines st ++ rest) ∧
    (f ≠ "all" → f ≠ "settings" → f ≠ "architecture" → f ≠ "current" →
      f ≠ "recent" → Bun.getContextLines st f = Bun.statusLines st) := by
  have hset : Bun.getContextLines st "settings" =
      Bun.statusLines st ++ Bun.settingsSection st := by
    rw [Bun.getContextLines, if_pos (Or.inr rfl), if_neg (by decide),
      if_neg (by decide), if_neg (by decide)]
    simp
  have notMem : ∀ y : String, y.data.head? = some '\\' →
      y ≠ "\\n## ⚙️ Key Settings" → y ∉ Bun.getContextLines st "settings" := by
    intro y hy hne hmem
    rw [hset] at hmem
    rcases List.mem_append.mp hmem with h | h
    · rcases statusLines_shape st y h with h' | h' <;> rw [hy] at h' <;>
        exact absurd h' (by decide)
    · rcases settingsSection_shape st y h with h' | h'
      · exact hne h'
      · rw [hy] at h'; exact absurd h' (by decide)
  refine ⟨hset, notMem _ (by decide) (by decide), notMem _ (by decide) (by decide),
    notMem _ (by decide) (by decide), ?_, ?_⟩
  · exact ⟨_, by rw [Bun.getContextLines, List.append_assoc, List.append_assoc,
      List.append_assoc]⟩
  · intro h1 h2 h3 h4 h5
    rw [Bun.getContextLines, if_neg (by simp [h1, h2]), if_neg (by simp [h1, h3]),
      if_neg (by simp [h1, h4]), if_neg (by simp [h1, h5])]
    simp

/-- Witness for `getContext_focus`: an unrecognized focus on a concrete
store yields exactly the status summary. -/
theorem getContext_focus_witness :
    Bun.getContextLines helloStore "bogus" = Bun.statusLines helloStore :=
  (getContext_focus helloStore "bogus").2.2.2.2.2
    (by decide) (by decide) (by decide) (by decide) (by decide)

/-- Appending the current AUTOINCREMENT counter as a fresh id keeps a table
well-formed. -/
theorem tableWF_snoc (ids : List Nat) (n : Nat) (h : tableWF ids n) :
    tableWF (ids ++ [n]) (n + 1) := by
  obtain ⟨hp, hb⟩ := h
  constructor
  · rw [List.pairwise_append]
    refine ⟨hp, List.pairwise_singleton .., ?_⟩
    intro a ha b hb'
    rcases List.mem_singleton.mp hb' with rfl
    exact hb a ha
  · intro i hi
    rcases List.mem_append.mp hi with hi | hi
    · exact Nat.lt_trans (hb i hi) (Nat.lt_succ_self _)
    · rcases List.mem_singleton.mp hi with rfl
      exact Nat.lt_succ_self _

/-- A table stays well-formed when rows are dropped. -/
theorem tableWF_filter (f : α → Nat) (p : α → Bool) (l : List α) (n : Nat)
    (h : tableWF (l.map f) n) : tableWF ((l.filter p).map f) n := by
  obtain ⟨hp, hb⟩ := h
  have hs : List.Sublist ((l.filter p).map f) (l.map f) :=
    (List.filter_sublist l).map f
  exact ⟨hp.sublist hs, fun i hi => hb i (hs.subset hi)⟩

/-- Strictly increasing ids are pairwise distinct. -/
theorem tableWF_ne (ids : List Nat) (n : Nat) (h : tableWF ids n) :
    ids.Pairwise (· ≠ ·) :=
  h.1.imp Nat.ne_of_lt

/-- One dispatched Bun call preserves well-formedness of all eight id
columns: whatever the tool and arguments, ids stay strictly increasing in
rowid order and below the AUTOINCREMENT counter. -/
theorem step_wf (st : Store) (now : Nat) (name : String) (a : Args)
    (h : storeWF st) : storeWF (Bun.step st now name a) := by
  obtain ⟨h1, h2, h3, h4, h5, h6, h7, h8⟩ := h
  obtain ⟨cat, key, val, dsc, comp, ts, fp, pat, env, th, dst, tv, rb, ttl,
    cont, tg, rf, impl, fa, sev, imp, qry, foc, pr, sid, tid⟩ := a
  by_cases n1 : name = "ccmem_learn_setting"
  · subst n1
    rcases cat with _ | c <;> rcases key with _ | k <;> rcases val with _ | v
    · exact ⟨h1, h2, h3, h4, h5, h6, h7, h8⟩
    · exact ⟨h1, h2, h3, h4, h5, h6, h7, h8⟩
    · exact ⟨h1, h2, h3, h4, h5, h6, h7, h8⟩
    · exact ⟨h1, h2, h3, h4, h5, h6, h7, h8⟩
    · exact ⟨h1, h2, h3, h4, h5, h6, h7, h8⟩
    · exact ⟨h1, h2, h3, h4, h5, h6, h7, h8⟩
    · exact ⟨h1, h2, h3, h4, h5, h6, h7, h8⟩
    · refine ⟨?_, h2, h3, h4, h5, h6, h7, h8⟩
      show tableWF
        ((st.settings.filter (fun r : SettingRow => !(r.category == c && r.key_name == k)) ++ [SettingRow.mk st.nextSettingsId c k v (orNull dsc) now now]).map (·.id))
        (st.nextSettingsId + 1)
      rw [List.map_append]
      exact tableWF_snoc _ _ (tableWF_filter _ _ _ _ h1)
  by_cases n2 : name = "ccmem_learn_architecture"
  · subst n2
    rcases comp with _ | c <;> rcases dsc with _ | d <;> rcases ts with _ | t
    · exact ⟨h1, h2, h3, h4, h5, h6, h7, h8⟩
    · exact ⟨h1, h2, h3, h4, h5, h6, h7, h8⟩
    · exact ⟨h1, h2, h3, h4, h5, h6, h7, h8⟩
    · exact ⟨h1, h2, h3, h4, h5, h6, h7, h8⟩
    · exact ⟨h1, h2, h3, h4, h5, h6, h7, h8⟩
    · exact ⟨h1, h2, h3, h4, h5, h6, h7, h8⟩
    · exact ⟨h1, h2, h3, h4, h5, h6, h7, h8⟩
    · refine ⟨h1, ?_, h3, h4, h5, h6, h7, h8⟩
      show tableWF
        ((st.architecture ++ [ArchRow.mk st.nextArchId c d t (orNull fp) (orNull pat) now now]).map (·.id))
        (st.nextArchId + 1)
      rw [List.map_append]
      exact tableWF_snoc _ _ h2
  by_cases n3 : name = "ccmem_learn_deployment"
  · subst n3
    rcases env with _ | e <;> rcases dst with _ | d
    · exact ⟨h1, h2, h3, h4, h5, h6, h7, h8⟩
    · exact ⟨h1, h2, h3, h4, h5, h6, h7, h8⟩
    · exact ⟨h1, h2, h3, h4, h5, h6, h7, h8⟩
    · refine ⟨h1, h2, ?_, h4, h5, h6, h7, h8⟩
      show tableWF
        ((st.deployment ++ [DeployRow.mk st.nextDeployId e (orNull th) d (orNull tv) (orNull rb) none now now]).map (·.id))
        (st.nextDeployId + 1)
      rw [List.map_append]
      exact tableWF_snoc _ _ h3
  by_cases n4 : name = "ccmem_create_story"
  · subst n4
    rcases ttl with _ | t <;> rcases dsc with _ | d
    · exact ⟨h1, h2, h3, h4, h5, h6, h7, h8⟩
    · exact ⟨h1, h2, h3, h4, h5, h6, h7, h8⟩
    · exact ⟨h1, h2, h3, h4, h5, h6, h7, h8⟩
    · refine ⟨h1, h2, h3, ?_, h5, h6, h7, h8⟩
      show tableWF
        ((st.story ++ [StoryRow.mk st.nextStoryId t d "active" (orDefaultNat pr 3) (orNull fa) now now none]).map (·.id))
        (st.nextStoryId + 1)
      rw [List.map_append]
      exact tableWF_snoc _ _ h4
  by_cases n5 : name = "ccmem_create_task"
  · subst n5
    rcases ttl with _ | t <;> rcases dsc with _ | d
    · exact ⟨h1, h2, h3, h4, h5, h6, h7, h8⟩
    · exact ⟨h1, h2, h3, h4, h5, h6, h7, h8⟩
    · exact ⟨h1, h2, h3, h4, h5, h6, h7, h8⟩
    · refine ⟨h1, h2, h3, h4, ?_, h6, h7, h8⟩
      show tableWF
        ((st.task ++ [TaskRow.mk st.nextTaskId (jsNatOrNull sid) t d "todo" (orNull fa) (orNull impl) now now none]).map (·.id))
        (st.nextTaskId + 1)
      rw [List.map_append]
      exact tableWF_snoc _ _ h5
  by_cases n6 : name = "ccmem_log_defect"
  · subst n6
    rcases ttl with _ | t <;> rcases dsc with _ | d
    · exact ⟨h1, h2, h3, h4, h5, h6, h7, h8⟩
    · exact ⟨h1, h2, h3, h4, h5, h6, h7, h8⟩
    · exact ⟨h1, h2, h3, h4, h5, h6, h7, h8⟩
    · refine ⟨h1, h2, h3, h4, h5, ?_, h7, h8⟩
      show tableWF
        ((st.defect ++ [DefectRow.mk st.nextDefectId (jsNatOrNull sid) (jsNatOrNull tid) t d (orDefaultStr sev "medium") "open" (orNull fa) none now none]).map (·.id))
        (st.nextDefectId + 1)
      rw [List.map_append]
      exact tableWF_snoc _ _ h6
  by_cases n7 : name = "ccmem_record_lesson"
  · subst n7
    rcases ttl with _ | t <;> rcases dsc with _ | d <;> rcases cat with _ | c
    · exact ⟨h1, h2, h3, h4, h5, h6, h7, h8⟩
    · exact ⟨h1, h2, h3, h4, h5, h6, h7, h8⟩
    · exact ⟨h1, h2, h3, h4, h5, h6, h7, h8⟩
    · exact ⟨h1, h2, h3, h4, h5, h6, h7, h8⟩
    · exact ⟨h1, h2, h3, h4, h5, h6, h7, h8⟩
    · exact ⟨h1, h2, h3, h4, h5, h6, h7, h8⟩
    · exact ⟨h1, h2, h3, h4, h5, h6, h7, h8⟩
    · refine ⟨h1, h2, h3, h4, h5, h6, ?_, h8⟩
      show tableWF
        ((st.lessons ++ [LessonRow.mk st.nextLessonsId t d c (orDefaultStr imp "medium") (orNull rf) (orNull tg) now]).map (·.id))
        (st.nextLessonsId + 1)
      rw [List.map_append]
      exact tableWF_snoc _ _ h7
  by_cases n8 : name = "ccmem_add_knowledge"
  · subst n8
    rcases ttl with _ | t <;> rcases cont with _ | c
    · exact ⟨h1, h2, h3, h4, h5, h6, h7, h8⟩
    · exact ⟨h1, h2, h3, h4, h5, h6, h7, h8⟩
    · exact ⟨h1, h2, h3, h4, h5, h6, h7, h8⟩
    · refine ⟨h1, h2, h3, h4, h5, h6, h7, ?_⟩
      show tableWF
        ((st.knowledge ++ [KnowledgeRow.mk st.nextKnowledgeId t c (orDefaultStr cat "general") (orNull tg) now now]).map (·.id))
        (st.nextKnowledgeId + 1)
      rw [List.map_append]
      exact tableWF_snoc _ _ h8
  by_cases n9 : name = "ccmem_get_context"
  · subst n9
    exact ⟨h1, h2, h3, h4, h5, h6, h7, h8⟩
  by_cases n10 : name = "ccmem_search"
  · subst n10
    rcases qry with _ | q <;> exact ⟨h1, h2, h3, h4, h5, h6, h7, h8⟩
  have hdef : Bun.step st now name
      ⟨cat, key, val, dsc, comp, ts, fp, pat, env, th, dst, tv, rb, ttl,
       cont, tg, rf, impl, fa, sev, imp, qry, foc, pr, sid, tid⟩ = st := by
    rw [Bun.step, Bun.callTool, if_neg n1, if_neg n2, if_neg n3, if_neg n4,
      if_neg n5, if_neg n6, if_neg n7, if_neg n8, if_neg n9, if_neg n10]
  rw [hdef]
  exact ⟨h1, h2, h3, h4, h5, h6, h7, h8⟩

/-- One dispatched Bun call never removes or rewrites a row of the five
append-only tables: every story/task/defect/lesson/knowledge row survives
unchanged (in particular with its id). -/
theorem step_keeps_appends (st : Store) (now : Nat) (name : String) (a : Args) :
    (∀ r ∈ st.story, r ∈ (Bun.step st now name a).story) ∧
    (∀ r ∈ st.task, r ∈ (Bun.step st now name a).task) ∧
    (∀ r ∈ st.defect, r ∈ (Bun.step st now name a).defect) ∧
    (∀ r ∈ st.lessons, r ∈ (Bun.step st now name a).lessons) ∧
    (∀ r ∈ st.knowledge, r ∈ (Bun.step st now name a).knowledge) := by
  obtain ⟨cat, key, val, dsc, comp, ts, fp, pat, env, th, dst, tv, rb, ttl,
    cont, tg, rf, impl, fa, sev, imp, qry, foc, pr, sid, tid⟩ := a
  by_cases n1 : name = "ccmem_learn_setting"
  · subst n1
    rcases cat with _ | c <;> rcases key with _ | k <;> rcases val with _ | v <;>
      exact ⟨fun r h => h, fun r h => h, fun r h => h, fun r h => h, fun r h => h⟩
  by_cases n2 : name = "ccmem_learn_architecture"
  · subst n2
    rcases comp with _ | c <;> rcases dsc with _ | d <;> rcases ts with _ | t <;>
      exact ⟨fun r h => h, fun r h => h, fun r h => h, fun r h => h, fun r h => h⟩
  by_cases n3 : name = "ccmem_learn_deployment"
  · subst n3
    rcases env with _ | e <;> rcases dst with _ | d <;>
      exact ⟨fun r h => h, fun r h => h, fun r h => h, fun r h => h, fun r h => h⟩
  by_cases n4 : name = "ccmem_create_story"
  · subst n4
    rcases ttl with _ | t <;> rcases dsc with _ | d <;>
      first
      | exact ⟨fun r h => h, fun r h => h, fun r h => h, fun r h => h,
               fun r h => h⟩
      | exact ⟨fun r h => List.mem_append_left _ h, fun r h => h, fun r h => h,
               fun r h => h, fun r h => h⟩
  by_cases n5 : name = "ccmem_create_task"
  · subst n5
    rcases ttl with _ | t <;> rcases dsc with _ | d <;>
      first
      | exact ⟨fun r h => h, fun r h => h, fun r h => h, fun r h => h,
               fun r h => h⟩
      | exact ⟨fun r h => h, fun r h => List.mem_append_left _ h, fun r h => h,
               fun r h => h, fun r h => h⟩
  by_cases n6 : name = "ccmem_log_defect"
  · subst n6
    rcases ttl with _ | t <;> rcases dsc with _ | d <;>
      first
      | exact ⟨fun r h => h, fun r h => h, fun r h => h, fun r h => h,
               fun r h => h⟩
      | exact ⟨fun r h => h, fun r h => h, fun r h => List.mem_append_left _ h,
               fun r h => h, fun r h => h⟩
  by_cases n7 : name = "ccmem_record_lesson"
  · subst n7
    rcases ttl with _ | t <;> rcases dsc with _ | d <;> rcases cat with _ | c <;>
      first
      | exact ⟨fun r h => h, fun r h => h, fun r h => h, fun r h => h,
               fun r h => h⟩
      | exact ⟨fun r h => h, fun r h => h, fun r h => h,
               fun r h => List.mem_append_left _ h, fun r h => h⟩
  by_cases n8 : name = "ccmem_add_knowledge"
  · subst n8
    rcases ttl with _ | t <;> rcases cont with _ | c <;>
      first
      | exact ⟨fun r h => h, fun r h => h, fun r h => h, fun r h => h,
               fun r h => h⟩
      | exact ⟨fun r h => h, fun r h => h, fun r h => h, fun r h => h,
               fun r h => List.mem_append_left _ h⟩
  by_cases n9 : name = "ccmem_get_context"
  · subst n9
    exact ⟨fun r h => h, fun r h => h, fun r h => h, fun r h => h, fun r h => h⟩
  by_cases n10 : name = "ccmem_search"
  · subst n10
    rcases qry with _ | q <;>
      exact ⟨fun r h => h, fun r h => h, fun r h => h, fun r h => h, fun r h => h⟩
  have hdef : Bun.step st now name
      ⟨cat, key, val, dsc, comp, ts, fp, pat, env, th, dst, tv, rb, ttl,
       cont, tg, rf, impl, fa, sev, imp, qry, foc, pr, sid, tid⟩ = st := by
    rw [Bun.step, Bun.callTool, if_neg n1, if_neg n2, if_neg n3, if_neg n4,
      if_neg n5, if_neg n6, if_neg n7, if_neg n8, if_neg n9, if_neg n10]
  rw [hdef]
  exact ⟨fun r h => h, fun r h => h, fun r h => h, fun r h => h, fun r h => h⟩

/-- C4 counterexample: from an empty store, learning (test, command) assigns
the Setting entity id 1; re-learning the same (category, key) leaves the
store with that entity carried by a fresh row with id 2 — the upsert deletes
and reinserts, so the live entity for the key changes id (and `created_at`). -/
theorem setting_id_reassigned :
    setOnceStore.settings.map (fun r => (r.category, r.key_name, r.id)) =
      [("test", "command", 1)] ∧
    setTwiceStore.settings.map (fun r => (r.category, r.key_name, r.id)) =
      [("test", "command", 2)] := by
  constructor <;> rfl

/-- C4 (amended): across every dispatched operation, ids within each entity
type are pairwise distinct and assigned in strictly increasing rowid order
(`storeWF` is preserved from the empty store), and rows of the append-only
entity types are never removed or rewritten — but an upsert may replace the
row of an existing Setting / ArchitectureNote / DeploymentProcedure key
with a fresh, larger id (see `setting_id_reassigned`). -/
theorem ids_unique_monotone_stable (st : Store) (now : Nat) (name : String)
    (a : Args) (h : storeWF st) :
    storeWF (Bun.step st now name a) ∧
    distinctIds st ∧
    (∀ r ∈ st.story, r ∈ (Bun.step st now name a).story) ∧
    (∀ r ∈ st.task, r ∈ (Bun.step st now name a).task) ∧
    (∀ r ∈ st.defect, r ∈ (Bun.step st now name a).defect) ∧
    (∀ r ∈ st.lessons, r ∈ (Bun.step st now name a).lessons) ∧
    (∀ r ∈ st.knowledge, r ∈ (Bun.step st now name a).knowledge) := by
  obtain ⟨k1, k2, k3, k4, k5⟩ := step_keeps_appends st now name a
  obtain ⟨h1, h2, h3, h4, h5, h6, h7, h8⟩ := h
  exact ⟨step_wf st now name a ⟨h1, h2, h3, h4, h5, h6, h7, h8⟩,
    ⟨tableWF_ne _ _ h1, tableWF_ne _ _ h2, tableWF_ne _ _ h3, tableWF_ne _ _ h4,
     tableWF_ne _ _ h5, tableWF_ne _ _ h6, tableWF_ne _ _ h7, tableWF_ne _ _ h8⟩,
    k1, k2, k3, k4, k5⟩

/-- Witness for `ids_unique_monotone_stable` at a concrete input. -/
theorem ids_unique_monotone_stable_witness :
    storeWF (Bun.step emptyStore 1 "ccmem_create_story" storyArgs) :=
  (ids_unique_monotone_stable emptyStore 1 "ccmem_create_story" storyArgs
    (by decide)).1

/-- A leading run against the empty string succeeds only for the empty
pattern. -/
theorem isLead_nil (q : List Char) : isLead q [] = q.isEmpty := by
  cases q <;> rfl

/-- Every string has the empty suffix, so a trailing `%` always closes the
match. -/
theorem suffixes_any_isEmpty (s : List Char) :
    (suffixes s).any (·.isEmpty) = true := by
  induction s with
  | nil => rfl
  | cons c t ih => simp [suffixes, ih]

/-- Taking all suffixes of every candidate leaves a match-closing candidate
exactly when there was any candidate at all. -/
theorem catMap_suffixes_any (opts : List (List Char)) :
    (catMap suffixes opts).any (·.isEmpty) = opts.any (fun _ => true) := by
  induction opts with
  | nil => rfl
  | cons s t ih => simp [catMap, List.any_append, suffixes_any_isEmpty, ih]

/-- One unfolded step of `isLead` on a cons pattern, as a function. -/
def leadStep (c : Char) (f : List Char → Bool) : List Char → Bool
  | [] => false
  | x :: t => (c == x) && f t

/-- `isLead` on a cons pattern is a `leadStep`. -/
theorem isLead_cons_fun (a : Char) (q : List Char) :
    (fun s => isLead (a :: q) s) = leadStep a (fun t => isLead q t) := by
  funext s
  cases s <;> rfl

/-- Matching one literal character then testing `f` is testing `leadStep`
on the original candidates. -/
theorem stepLit_any (c : Char) (f : List Char → Bool) (opts : List (List Char)) :
    (stepLit c opts).any f = opts.any (leadStep c f) := by
  induction opts with
  | nil => rfl
  | cons s t ih =>
    cases s with
    | nil => simpa [stepLit, leadStep] using ih
    | cons x s' =>
      by_cases hx : (c == x) = true <;> simp [stepLit, hx, leadStep, ih]

/-- A metacharacter-free pattern followed by `%` matches some candidate
exactly when the pattern is a leading run of some candidate. -/
theorem likeGo_lit (q : List Char) (hq : ∀ c ∈ q, c ≠ '%' ∧ c ≠ '_') :
    ∀ opts, likeGo (q ++ ['%']) opts = opts.any (fun s => isLead q s) := by
  induction q with
  | nil =>
    intro opts
    show likeGo ['%'] opts = _
    rw [likeGo]
    rw [if_pos rfl]
    show (catMap suffixes opts).any (·.isEmpty) = _
    rw [catMap_suffixes_any]
    simp [isLead]
  | cons a q' ih =>
    intro opts
    have ha := hq a (by simp)
    show likeGo (a :: (q' ++ ['%'])) opts = _
    rw [likeGo, if_neg ha.1, if_neg ha.2,
      ih (fun c hc => hq c (List.mem_cons_of_mem a hc)), stepLit_any,
      isLead_cons_fun]

/-- Scanning all suffixes for a leading run is substring search. -/
theorem suffixes_any_isLead (q : List Char) (s : List Char) :
    (suffixes s).any (fun t => isLead q t) = hasSub q s := by
  induction s with
  | nil => simp [suffixes, hasSub, isLead_nil]
  | cons c t ih => simp [suffixes, hasSub, ih]

/-- For a query without LIKE metacharacters, the pattern `%query%` matches a
string exactly when the query occurs contiguously inside it. -/
theorem likeMatch_eq_hasSub (q s : List Char)
    (hq : ∀ c ∈ q, c ≠ '%' ∧ c ≠ '_') :
    likeMatch ('%' :: (q ++ ['%'])) s = hasSub q s := by
  rw [likeMatch, likeGo, if_pos rfl]
  show likeGo (q ++ ['%']) (catMap suffixes [s]) = _
  have : catMap suffixes [s] = suffixes s := by
    show suffixes s ++ [] = suffixes s
    exact List.append_nil _
  rw [this, likeGo_lit q hq, suffixes_any_isLead]

/-- For a metacharacter-free query the servers' LIKE row predicate is
exactly case-insensitive containment in title or body. -/
theorem rowMatch_eq_spec (q : String) (hq : noMetaLow q) (t b : String) :
    Bun.rowMatch q t b = specRowMatch q t b := by
  rw [Bun.rowMatch, specRowMatch, specContains, specContains, Bun.searchPat,
    likeMatch_eq_hasSub _ _ hq, likeMatch_eq_hasSub _ _ hq]

/-- Two search passes with pointwise-equal row predicates produce the same
hits. -/
theorem searchHitsWith_congr (m m' : String → String → Bool) (st : Store)
    (h : ∀ t b, m t b = m' t b) :
    Bun.searchHitsWith m st = Bun.searchHitsWith m' st := by
  have e : m = m' := funext fun t => funext fun b => h t b
  rw [e]

/-- Each per-type search segment holds at most 5 rows. -/
theorem topMatches_len (p : α → Bool) (l : List α) :
    (Bun.topMatches p l).length ≤ 5 := by
  rw [Bun.topMatches]
  exact List.length_take_le ..

/-- If a table's timestamps are nondecreasing in rowid order, its search
segment is ordered by `created_at` descending. -/
theorem topMatches_sorted (f : α → Nat) (p : α → Bool) (l : List α)
    (h : (l.map f).Pairwise (· ≤ ·)) :
    ((Bun.topMatches p l).map f).Pairwise (fun a b => b ≤ a) := by
  rw [Bun.topMatches, List.map_take, List.map_reverse]
  have h1 : ((l.filter p).map f).Pairwise (· ≤ ·) :=
    h.sublist ((List.filter_sublist l).map f)
  have h2 : (((l.filter p).map f).reverse).Pairwise (fun a b => b ≤ a) :=
    List.pairwise_reverse.mpr h1
  exact h2.sublist (List.take_sublist ..)

/-- C6 (amended): for a query without the LIKE metacharacters `%` and `_`,
the search report equals the specification's report — per entity type the
rows whose title or body contains the query case-insensitively, at most 5
per type, ordered by createdAt descending (given rowid-ordered timestamps),
concatenated story/task/lesson/knowledge — and an empty hit list yields the
explicit no-results text.  (For queries containing `%` or `_` the claim
fails: see the wildcard counterexample.) -/
theorem search_report (st : Store) (q : String) (hq : noMetaLow q)
    (ht : timesSorted st) :
    Bun.searchText st q = specSearchText st q ∧
    Bun.searchHits st q = specSearchHits st q ∧
    (Bun.searchHits st q = [] →
      Bun.searchText st q = "No results found for \"" ++ q ++ "\"") ∧
    (Bun.topMatches (fun r => Bun.rowMatch q r.title r.description)
      st.story).length ≤ 5 ∧
    (Bun.topMatches (fun r => Bun.rowMatch q r.title r.description)
      st.task).length ≤ 5 ∧
    (Bun.topMatches (fun r => Bun.rowMatch q r.title r.description)
      st.lessons).length ≤ 5 ∧
    (Bun.topMatches (fun r => Bun.rowMatch q r.title r.content)
      st.knowledge).length ≤ 5 ∧
    ((Bun.topMatches (fun r => Bun.rowMatch q r.title r.description)
      st.story).map (·.created_at)).Pairwise (fun a b => b ≤ a) ∧
    ((Bun.topMatches (fun r => Bun.rowMatch q r.title r.description)
      st.task).map (·.created_at)).Pairwise (fun a b => b ≤ a) ∧
    ((Bun.topMatches (fun r => Bun.rowMatch q r.title r.description)
      st.lessons).map (·.created_at)).Pairwise (fun a b => b ≤ a) ∧
    ((Bun.topMatches (fun r => Bun.rowMatch q r.title r.content)
      st.knowledge).map (·.created_at)).Pairwise (fun a b => b ≤ a) := by
  obtain ⟨t1, t2, t3, t4⟩ := ht
  have hhits : Bun.searchHits st q = specSearchHits st q := by
    rw [Bun.searchHits, specSearchHits]
    exact searchHitsWith_congr _ _ st (fun t b => rowMatch_eq_spec q hq t b)
  refine ⟨?_, hhits, ?_, topMatches_len .., topMatches_len .., topMatches_len ..,
    topMatches_len .., topMatches_sorted _ _ _ t1, topMatches_sorted _ _ _ t2,
    topMatches_sorted _ _ _ t3, topMatches_sorted _ _ _ t4⟩
  · rw [Bun.searchText, specSearchText, Bun.searchLines, hhits]
  · intro h
    rw [Bun.searchText, if_pos h]

/-- Witness for `search_report` at a concrete input. -/
theorem search_report_witness :
    Bun.searchText helloStore "LO" = specSearchText helloStore "LO" :=
  (search_report helloStore "LO" (by decide) (by decide)).1

/-- C7 (amended): the search report renders each matched body as its first
150 characters followed unconditionally by the ellipsis marker (so a short
body appears in full and still carries the marker), and each recent-lessons
line renders the first 100 characters of the description followed
unconditionally by the marker. -/
theorem preview_rule (st : Store) (q : String) (h : Bun.SearchHit)
    (l : LessonRow) :
    Bun.searchLines st q =
      ("## 🔍 Search Results for \"" ++ q ++ "\"\\n") ::
      catMap Bun.renderHit (Bun.searchHits st q) ∧
    Bun.renderHit h =
      ["**" ++ upperStr h.type ++ " #" ++ toString h.id ++ "**: " ++ h.title,
       jsSub h.body 150 ++ "...\\n"] ∧
    (h.body.data.length ≤ 150 → jsSub h.body 150 = h.body) ∧
    Bun.lessonLine l =
      "- **" ++ l.title ++ "** (" ++ l.category ++ "): " ++
      jsSub l.description 100 ++ "..." ∧
    (l.description.data.length ≤ 100 → jsSub l.description 100 = l.description) := by
  refine ⟨rfl, rfl, ?_, rfl, ?_⟩
  · intro hl
    rw [jsSub, List.take_of_length_le hl]
  · intro hl
    rw [jsSub, List.take_of_length_le hl]

/-- Witness for `preview_rule` at concrete inputs. -/
theorem preview_rule_witness :
    jsSub "abc" 150 = "abc" ∧ jsSub "xy" 100 = "xy" :=
  ⟨(preview_rule shortStore "abc" ⟨"story", 1, "t", "abc", 1⟩
      ⟨1, "ti", "xy", "proc", "medium", none, none, 1⟩).2.2.1 (by decide),
   (preview_rule shortStore "abc" ⟨"story", 1, "t", "abc", 1⟩
      ⟨1, "ti", "xy", "proc", "medium", none, none, 1⟩).2.2.2.2 (by decide)⟩

/-- C9 (amended): creating a Task whose storyId is nonzero and refers to no
existing Story succeeds with the linked confirmation text, and the task is
stored with exactly that storyId (status 'todo') and sits in the task
table afterwards.  (A storyId of 0 — equally nonexistent — is falsy in JS
and is stored as NULL instead: see the counterexample.) -/
theorem dangling_task (st : Store) (now : Nat) (sid : Nat) (t d : String)
    (hs : sid ≠ 0) (_hmem : sid ∉ st.story.map (·.id)) :
    Bun.callTool st now "ccmem_create_task"
      { title := some t, description := some d, story_id := some sid } =
      .ok (Bun.applyTask st now (some sid) t d none none,
           Bun.taskText st.nextTaskId t (some sid)) ∧
    TaskRow.mk st.nextTaskId (some sid) t d "todo" none none now now none ∈
      (Bun.applyTask st now (some sid) t d none none).task ∧
    Bun.taskText st.nextTaskId t (some sid) =
      "✅ Created task #" ++ toString st.nextTaskId ++ ": " ++ t ++ "\n\n" ++
      ("Linked to story #" ++ toString sid) := by
  have h0 : (sid == 0) = false := beq_eq_false_iff_ne.mpr hs
  refine ⟨rfl, ?_, ?_⟩
  · show _ ∈ st.task ++
      [TaskRow.mk st.nextTaskId (jsNatOrNull (some sid)) t d "todo"
        (orNull none) (orNull none) now now none]
    simp [jsNatOrNull, h0, orNull]
  · rw [Bun.taskText]
    simp [h0]

/-- Witness for `dangling_task` at a concrete input. -/
theorem dangling_task_witness :
    Bun.callTool emptyStore 3 "ccmem_create_task"
      { title := some "t", description := some "d", story_id := some 42 } =
      .ok (Bun.applyTask emptyStore 3 (some 42) "t" "d" none none,
           Bun.taskText emptyStore.nextTaskId "t" (some 42)) :=
  (dangling_task emptyStore 3 42 "t" "d" (by decide) (by decide)).1

/-- C3 (amended): of the ten tools, the fallback Node backend accepts only
learn-setting and get-context; on learn-setting with all required fields
present both backends return the identical confirmation text and leave
exactly one settings row for the written (category, key), holding the new
value. -/
theorem backend_common_subset :
    (∀ (nst : NodeStore) (now : Nat) (name : String) (a : Args),
      okB (Node.callTool nst now name a) = true →
      name = "ccmem_learn_setting" ∨ name = "ccmem_get_context") ∧
    (∀ (st : Store) (nst : NodeStore) (now : Nat) (c k v : String)
        (d : Option String),
      Bun.callTool st now "ccmem_learn_setting"
        { category := some c, key := some k, value := some v,
          description := d } =
        .ok (Bun.applySetting st now c k v d, Bun.settingText c k v) ∧
      Node.callTool nst now "ccmem_learn_setting"
        { category := some c, key := some k, value := some v,
          description := d } =
        .ok (Node.applySetting nst now (some c) (some k) (some v) d,
             Bun.settingText c k v) ∧
      ((Bun.applySetting st now c k v d).settings.filter
          (fun r => r.category == c && r.key_name == k)).map (·.value) = [v] ∧
      ((Node.applySetting nst now (some c) (some k) (some v) d).settings.filter
          (fun r => r.category == some c && r.key_name == some k)).map
        (·.value) = [some v]) := by
  constructor
  · intro nst now name a h
    by_cases e1 : name = "ccmem_learn_setting"
    · exact Or.inl e1
    by_cases e2 : name = "ccmem_get_context"
    · exact Or.inr e2
    rw [Node.callTool, if_neg e1, if_neg e2] at h
    simp [okB] at h
  · intro st nst now c k v d
    refine ⟨rfl, rfl, ?_, ?_⟩
    · simp [Bun.applySetting, List.filter_append, filter_after_filterNot]
    · simp [Node.applySetting, List.filter_append, filter_after_filterNot]

/-- Witness for `backend_common_subset` at a concrete input. -/
theorem backend_common_subset_witness :
    "ccmem_get_context" = "ccmem_learn_setting" ∨
    "ccmem_get_context" = "ccmem_get_context" :=
  backend_common_subset.1 emptyNodeStore 0 "ccmem_get_context" storyArgs
    (by decide)
